import Mathlib

/-!
Shallow embedding of `src/app.py` (a Streamlit app that stages uploaded
legal documents, extracts their text, selects a prompt template, streams an
LLM completion, optionally exports the result as DOCX, and cleans up the
staged files), together with theorems settling the specification claims.

External effects are modelled explicitly:
* file contents / loader behaviour are oracle functions passed as arguments;
* the random uuid of `save_file` is abstracted to the fixed tag `"uid"`
  (uniqueness is irrelevant to the claims);
* `os.remove` failures are modelled by a `removeFails` oracle;
* the completion stream is a list of chunks plus an optional failure point.
-/

namespace App

/-- Python `str.strip()` whitespace set (ASCII fragment). -/
def isPyWhitespace (c : Char) : Bool :=
  c == ' ' || c == '\t' || c == '\n' || c == '\r' || c == '\x0b' || c == '\x0c'

/-- Python `str.strip()`: drop leading and trailing whitespace. -/
def pyStrip (s : String) : String :=
  String.mk (((s.data.dropWhile isPyWhitespace).reverse.dropWhile isPyWhitespace).reverse)

/-- Python `str.split("\n")` on a character list: split at every newline,
keeping empty segments (so the empty text yields one empty segment). -/
def splitNlChars : List Char → List (List Char)
  | [] => [[]]
  | '\n' :: rest => [] :: splitNlChars rest
  | c :: rest =>
    match splitNlChars rest with
    | [] => [[c]]
    | l :: ls => (c :: l) :: ls

/-- Python `text.split("\n")`. -/
def pySplitNl (s : String) : List String :=
  (splitNlChars s.data).map String.mk

/-- Python `str.endswith(suffixStr)`, via reversed character lists. -/
def listStarts : List Char → List Char → Bool
  | [], _ => true
  | _ :: _, [] => false
  | a :: as, b :: bs => a == b && listStarts as bs

/-- Python `path.endswith(suffixStr)`. -/
def strEndsWith (s suffixStr : String) : Bool :=
  listStarts suffixStr.data.reverse s.data.reverse

/-- Concatenation of a list of strings (Python `+=` accumulation result). -/
def concatAll : List String → String
  | [] => ""
  | s :: ss => s ++ concatAll ss

/-! ## `build_docx` (src/app.py lines 148-162) -/

/-- The exported DOCX file: a single "Normal" style (font name / size in
points) and a list of paragraph texts, in order. -/
structure DocxFile where
  fontName : String
  fontSizePt : Nat
  paragraphs : List String
deriving DecidableEq, Repr

/-- `build_docx(text)`: Times New Roman 12pt, one `add_paragraph` call per
element of `text.strip().split("\n")`. -/
def build_docx (text : String) : DocxFile :=
  { fontName := "Times New Roman"
    fontSizePt := 12
    paragraphs := pySplitNl (pyStrip text) }

/-! ## User-facing messages (src/app.py lines 193, 264, 271-279) -/

def msgApiKey : String := "⚠️ Пожалуйста, введите API ключ GigaChat"

def msgNeedChangesOrNew : String :=
  "⚠️ Перед запуском необходимо загрузить изменения закона или новый закон РФ"

def msgNeedRegion : String :=
  "⚠️ Перед запуском необходимо загрузить закон Курганской области"

def msgNeedBoth : String :=
  "⚠️ Перед запуском необходимо загрузить изменения закона или новый закон РФ, а также закон Курганской области"

def msgAnalysisError : String :=
  "При анализе возникла ошибка. Пожалуйста попробуйте снова."

/-! ## Template loading and prompt selection (src/app.py lines 18-29, 223-231) -/

/-- `load_template(type)`: reads `prompt_changes.txt` when the type is
`"changes"`, else `prompt_new_federal_law.txt`.  The template file contents
are opaque to the program, so the loaded template is represented by the name
of the file it was read from. -/
def load_template (ty : String) : String :=
  if ty == "changes" then "prompt_changes.txt" else "prompt_new_federal_law.txt"

/-- The prompt side of one run: which template was loaded and the
placeholder binding (`input_dict`) it is invoked with. -/
structure PromptSelection where
  template : String
  binding : List (String × String)
deriving DecidableEq, Repr

/-- Lines 223-231 of `main`: if the extracted changes text is truthy
(non-empty), use the changes template bound to `{changes, region_law}`,
else the new-federal-law template bound to `{new_federal_law, region_law}`. -/
def selectPrompt (changesText newFederalLawText regionLawText : String) : PromptSelection :=
  if changesText ≠ "" then
    { template := load_template "changes"
      binding := [("changes", changesText), ("region_law", regionLawText)] }
  else
    { template := load_template "new_federal_law"
      binding := [("new_federal_law", newFederalLawText), ("region_law", regionLawText)] }

/-! ## Text extraction (src/app.py lines 132-145) -/

/-- `extract_text_from_file(uploaded_file)`.  The external loaders
(`Docx2txtLoader`, `PyPDFLoader(mode="single")`) are oracles that either
return the extracted text or raise (`Except.error`).  The result pairs the
returned string with whether the generic user-facing error was shown (the
`except` branch, which also logs).  The function is total: extraction never
raises past this boundary. -/
def extract_text_from_file (docxLoad pdfLoad : String → Except String String)
    (uploadedFile : String) : String × Bool :=
  if strEndsWith uploadedFile ".docx" then
    match docxLoad uploadedFile with
    | Except.ok t => (t, false)
    | Except.error _ => ("", true)
  else if strEndsWith uploadedFile ".pdf" then
    match pdfLoad uploadedFile with
    | Except.ok t => (t, false)
    | Except.error _ => ("", true)
  else
    ("", false)

/-! ## File staging and cleanup (src/app.py lines 98-129, 196-203, 266-267) -/

/-- `save_file(file)`: writes the upload to `f"{uuid4()}_{file.name}"`.
The random unique id is abstracted to the fixed tag `"uid"`. -/
def save_file (name : String) : String := "uid_" ++ name

/-- `save_uploaded_files`: saves each present upload, keyed by its role,
preserving the dict insertion order `changes, new_federal_law, region_law`.
Each upload is represented by its original file name when present. -/
def save_uploaded_files (changes newFederalLaw regionLaw : Option String) :
    List (String × String) :=
  (match changes with
    | some n => [("changes", save_file n)]
    | none => []) ++
  (match newFederalLaw with
    | some n => [("new_federal_law", save_file n)]
    | none => []) ++
  (match regionLaw with
    | some n => [("region_law", save_file n)]
    | none => [])

/-- `saved_files.get(key, "")`. -/
def getSaved (saved : List (String × String)) (role : String) : String :=
  match saved.lookup role with
  | some p => p
  | none => ""

/-- `delete_files(files)`: a single `try` wraps the whole removal loop, so
the first raising `os.remove` aborts the loop.  `removeFails` is the oracle
saying which removals raise.  Returns the list of paths actually removed and
whether the cleanup error was logged. -/
def delete_files (removeFails : String → Bool) : List String → List String × Bool
  | [] => ([], false)
  | f :: fs =>
    if f = "" then delete_files removeFails fs
    else if removeFails f then ([], true)
    else
      let r := delete_files removeFails fs
      (f :: r.1, r.2)

/-! ## Streaming completion consumption and export (src/app.py lines 246-264) -/

/-- The accumulator values rendered after each fragment: starting from
`acc`, `partial_ += chunk; output_spot.markdown(partial_)` for each chunk. -/
def streamRenders (acc : String) : List String → List String
  | [] => []
  | c :: cs => (acc ++ c) :: streamRenders (acc ++ c) cs

/-- Outcome of the `try` block around the stream-consumption loop and the
export. -/
structure StreamOutcome where
  renders : List String
  finalText : String
  errorShown : Bool
  exportAttempted : Bool
  exportDoc : Option DocxFile
deriving DecidableEq, Repr

/-- The `try ... except` block of `main`: consume the chunks, rendering the
accumulator after each one.  `failAfter = some k` means the stream (or a
step inside the `with` block) raises after `k` fragments were consumed: the
error is logged, the generic retry message is shown, and the export code is
never reached.  `failAfter = none` is the success path: the results header,
`build_docx` on the final accumulator and the download button all run. -/
def runStream (chunks : List String) (failAfter : Option Nat) : StreamOutcome :=
  match failAfter with
  | none =>
    { renders := streamRenders "" chunks
      finalText := concatAll chunks
      errorShown := false
      exportAttempted := true
      exportDoc := some (build_docx (concatAll chunks)) }
  | some k =>
    { renders := streamRenders "" (chunks.take k)
      finalText := concatAll (chunks.take k)
      errorShown := true
      exportAttempted := false
      exportDoc := none }

/-! ## The button-press branch of `main` (src/app.py lines 190-281) -/

/-- Everything observable about one press of the start button. -/
structure MainResult where
  message : Option String
  staged : List String
  prompt : Option PromptSelection
  renders : List String
  exportAttempted : Bool
  exportDoc : Option DocxFile
  removed : List String
  cleanupRan : Bool
  cleanupErrorLogged : Bool
deriving DecidableEq, Repr

/-- A run rejected by validation: message shown, nothing staged, nothing
else happened. -/
def rejectedRun (msg : String) : MainResult :=
  { message := some msg
    staged := []
    prompt := none
    renders := []
    exportAttempted := false
    exportDoc := none
    removed := []
    cleanupRan := false
    cleanupErrorLogged := false }

/-- The validated branch of `main` (lines 196-267): stage the uploads,
extract their text, select the prompt, run the stream / export block, and
unconditionally (`finally`) delete the staged files. -/
def startedRun (changes newFederalLaw regionLaw : Option String)
    (docxLoad pdfLoad : String → Except String String)
    (chunks : List String) (failAfter : Option Nat)
    (removeFails : String → Bool) : MainResult :=
  let saved := save_uploaded_files changes newFederalLaw regionLaw
  let changesText :=
    if changes.isSome then
      (extract_text_from_file docxLoad pdfLoad (getSaved saved "changes")).1
    else ""
  let newFederalLawText :=
    if newFederalLaw.isSome then
      (extract_text_from_file docxLoad pdfLoad (getSaved saved "new_federal_law")).1
    else ""
  let regionLawText :=
    if regionLaw.isSome then
      (extract_text_from_file docxLoad pdfLoad (getSaved saved "region_law")).1
    else ""
  let sel := selectPrompt changesText newFederalLawText regionLawText
  let sr := runStream chunks failAfter
  let del := delete_files removeFails (saved.map Prod.snd)
  { message := if sr.errorShown then some msgAnalysisError else none
    staged := saved.map Prod.snd
    prompt := some sel
    renders := sr.renders
    exportAttempted := sr.exportAttempted
    exportDoc := sr.exportDoc
    removed := del.1
    cleanupRan := true
    cleanupErrorLogged := del.2 }

/-- The `if start_check:` body of `main`.  Inputs: the credential string
(`""` models a missing/falsy key), the three optional uploads (original file
names), the two loader oracles, the stream chunks with optional failure
point, and the removal-failure oracle. -/
def mainRun (apiKey : String) (changes newFederalLaw regionLaw : Option String)
    (docxLoad pdfLoad : String → Except String String)
    (chunks : List String) (failAfter : Option Nat)
    (removeFails : String → Bool) : MainResult :=
  if apiKey = "" then rejectedRun msgApiKey
  else if (changes.isSome || newFederalLaw.isSome) && regionLaw.isSome then
    startedRun changes newFederalLaw regionLaw docxLoad pdfLoad chunks failAfter removeFails
  else if regionLaw.isSome then rejectedRun msgNeedChangesOrNew
  else if changes.isSome || newFederalLaw.isSome then rejectedRun msgNeedRegion
  else rejectedRun msgNeedBoth

/-- Loader oracle that always succeeds with a fixed text. -/
def okLoader : String → Except String String := fun _ => Except.ok "txt"

/-- Loader oracle that always raises. -/
def errLoader : String → Except String String := fun _ => Except.error "boom"

/-- Removal oracle under which no `os.remove` raises. -/
def noRemoveFail : String → Bool := fun _ => false

/-- Removal oracle under which removing the staged changes file raises. -/
def failOnChangesPath : String → Bool := fun f => f == "uid_a.docx"

/-- Removal oracle under which removing `"b"` raises. -/
def failOnB : String → Bool := fun f => f == "b"

/-! ## Helper lemmas -/

lemma str_data_append (a b : String) : (a ++ b).data = a.data ++ b.data := by
  cases a; cases b; rfl

lemma str_append_assoc (a b c : String) : a ++ b ++ c = a ++ (b ++ c) := by
  cases a; cases b; cases c
  exact congrArg String.mk (List.append_assoc _ _ _)

lemma str_append_empty (a : String) : a ++ "" = a := by
  cases a
  exact congrArg String.mk (List.append_nil _)

lemma str_empty_append (a : String) : "" ++ a = a := by
  cases a
  exact congrArg String.mk (List.nil_append _)

lemma save_file_ne_empty (n : String) : save_file n ≠ "" := by
  intro h
  have h2 : (save_file n).data = "".data := congrArg String.data h
  rw [save_file, str_data_append] at h2
  simp at h2

lemma saved_paths_ne_empty (c n r : Option String) :
    ∀ p ∈ (save_uploaded_files c n r).map Prod.snd, p ≠ "" := by
  intro p hp
  rcases c with _ | cn <;> rcases n with _ | nn <;> rcases r with _ | rn <;>
    simp [save_uploaded_files] at hp <;>
    (try rcases hp with hp | hp) <;>
    (try rcases hp with hp | hp) <;>
    (try subst hp) <;>
    exact save_file_ne_empty _

lemma delete_files_noFail (rf : String → Bool) (l : List String)
    (h1 : ∀ f ∈ l, f ≠ "") (h2 : ∀ f ∈ l, rf f = false) :
    delete_files rf l = (l, false) := by
  induction l with
  | nil => rfl
  | cons g gs ih =>
    have hg1 : g ≠ "" := h1 g (List.mem_cons_self g gs)
    have hg2 : rf g = false := h2 g (List.mem_cons_self g gs)
    have hrec := ih (fun f hf => h1 f (List.mem_cons_of_mem g hf))
      (fun f hf => h2 f (List.mem_cons_of_mem g hf))
    simp [delete_files, hg1, hg2, hrec]

lemma streamRenders_length (cs : List String) :
    ∀ acc : String, (streamRenders acc cs).length = cs.length := by
  induction cs with
  | nil => intro acc; rfl
  | cons c cs ih => intro acc; simp [streamRenders, ih]

lemma streamRenders_getD (cs : List String) :
    ∀ (acc : String) (i : Nat), i < cs.length →
      (streamRenders acc cs).getD i "" = acc ++ concatAll (cs.take (i + 1)) := by
  induction cs with
  | nil => intro acc i hi; exact absurd hi (Nat.not_lt_zero i)
  | cons c cs ih =>
    intro acc i hi
    cases i with
    | zero =>
      simp [streamRenders, concatAll, str_append_empty]
    | succ j =>
      have hj : j < cs.length := Nat.lt_of_succ_lt_succ hi
      have := ih (acc ++ c) j hj
      simp only [streamRenders, List.getD_cons_succ, List.take_succ_cons, concatAll]
      rw [this, str_append_assoc]

lemma mainRun_eq_startedRun (k : String) (c n r : Option String)
    (dl pl : String → Except String String) (chunks : List String)
    (fa : Option Nat) (rf : String → Bool)
    (h1 : ¬ k = "") (h2 : ((c.isSome || n.isSome) && r.isSome) = true) :
    mainRun k c n r dl pl chunks fa rf = startedRun c n r dl pl chunks fa rf := by
  simp [mainRun, h1, h2]

lemma startedRun_cleanup (c n r : Option String)
    (dl pl : String → Except String String) (chunks : List String)
    (fa : Option Nat) (rf : String → Bool) :
    (startedRun c n r dl pl chunks fa rf).cleanupRan = true ∧
    ((∀ f ∈ (startedRun c n r dl pl chunks fa rf).staged, rf f = false) →
      (startedRun c n r dl pl chunks fa rf).removed =
        (startedRun c n r dl pl chunks fa rf).staged) := by
  refine ⟨rfl, fun hall => ?_⟩
  have hdel := delete_files_noFail rf ((save_uploaded_files c n r).map Prod.snd)
    (saved_paths_ne_empty c n r) hall
  show (delete_files rf ((save_uploaded_files c n r).map Prod.snd)).1 =
    (save_uploaded_files c n r).map Prod.snd
  rw [hdel]

/-! ## Claim theorems -/

/-- C1, counterexample: with BOTH the changes document and the
new-federal-law document supplied (together with the region-law document and
a credential), the run is started and files are staged — refuting the
claim's "exactly one of" requirement at a concrete input. -/
theorem C1_counterexample :
    (mainRun "k" (some "a.docx") (some "b.docx") (some "r.docx") okLoader okLoader [] none
        noRemoveFail).prompt.isSome = true ∧
    (mainRun "k" (some "a.docx") (some "b.docx") (some "r.docx") okLoader okLoader [] none
        noRemoveFail).staged = ["uid_a.docx", "uid_b.docx", "uid_r.docx"] := by
  decide

/-- C1, amended: a completion run is started exactly when the credential is
present and AT LEAST ONE of the changes-document and the
new-federal-law-document is supplied together with the region-law document;
for every other input combination the run is rejected with a user-facing
message and no file is staged. -/
theorem C1_validation (k : String) (c n r : Option String)
    (dl pl : String → Except String String) (chunks : List String)
    (fa : Option Nat) (rf : String → Bool) :
    ((mainRun k c n r dl pl chunks fa rf).prompt.isSome = true ↔
      (k ≠ "" ∧ ((c.isSome || n.isSome) && r.isSome) = true)) ∧
    ((mainRun k c n r dl pl chunks fa rf).prompt.isSome = false →
      (mainRun k c n r dl pl chunks fa rf).staged = [] ∧
      (mainRun k c n r dl pl chunks fa rf).message.isSome = true) := by
  by_cases h1 : k = ""
  · simp [mainRun, h1, rejectedRun]
  · rcases c with _ | cv <;> rcases n with _ | nv <;> rcases r with _ | rv <;>
      simp [mainRun, h1, rejectedRun, startedRun]

/-- Witness for `C1_validation` at a concrete rejected input. -/
theorem C1_validation_witness :
    (mainRun "k" none none none okLoader okLoader [] none noRemoveFail).staged = [] ∧
    (mainRun "k" none none none okLoader okLoader [] none noRemoveFail).message.isSome = true :=
  (C1_validation "k" none none none okLoader okLoader [] none noRemoveFail).2 (by decide)

/-- C2, counterexample: for the completion text `"A\n"` the exported
document has one paragraph while the text has two newline-delimited lines,
so "exactly one paragraph per newline-delimited line of that text" fails. -/
theorem C2_counterexample :
    (build_docx "A\n").paragraphs.length = 1 ∧ (pySplitNl "A\n").length = 2 := by
  decide

/-- C2, amended: the exported DOCX contains exactly one paragraph per
newline-delimited line of the whitespace-STRIPPED completion text (so for
texts without leading/trailing whitespace, one paragraph per line of the
text); for the text "Line1\nLine2\n\nLine3" the document contains four
paragraphs, the third one empty. -/
theorem C2_export_paragraphs (t : String) :
    (build_docx t).paragraphs = pySplitNl (pyStrip t) ∧
    (pyStrip t = t → (build_docx t).paragraphs = pySplitNl t) ∧
    (build_docx "Line1\nLine2\n\nLine3").paragraphs = ["Line1", "Line2", "", "Line3"] := by
  refine ⟨rfl, fun h => ?_, by decide⟩
  simp [build_docx, h]

/-- Witness for `C2_export_paragraphs` at the spec's concrete text. -/
theorem C2_export_paragraphs_witness :
    (build_docx "Line1\nLine2\n\nLine3").paragraphs = pySplitNl "Line1\nLine2\n\nLine3" :=
  (C2_export_paragraphs "Line1\nLine2\n\nLine3").2.1 (by decide)

/-- C3, counterexample: when removing the first staged file raises, the
cleanup step still runs but a file staged during the run (the region-law
copy) remains on disk, refuting "after any run no files staged during that
run remain on disk". -/
theorem C3_counterexample :
    "uid_r.docx" ∈ (mainRun "k" (some "a.docx") none (some "r.docx") okLoader okLoader []
        none failOnChangesPath).staged ∧
    "uid_r.docx" ∉ (mainRun "k" (some "a.docx") none (some "r.docx") okLoader okLoader []
        none failOnChangesPath).removed ∧
    (mainRun "k" (some "a.docx") none (some "r.docx") okLoader okLoader [] none
        failOnChangesPath).cleanupRan = true := by
  decide

/-- C3, amended: whenever files were staged the deletion step runs, it runs
regardless of whether the completion flow succeeded or raised, and provided
no removal itself raises, every staged file is deleted. -/
theorem C3_cleanup (k : String) (c n r : Option String)
    (dl pl : String → Except String String) (chunks : List String)
    (fa : Option Nat) (rf : String → Bool) :
    ((mainRun k c n r dl pl chunks fa rf).staged ≠ [] →
      (mainRun k c n r dl pl chunks fa rf).cleanupRan = true) ∧
    ((mainRun k c n r dl pl chunks fa rf).cleanupRan =
      (mainRun k c n r dl pl chunks none rf).cleanupRan) ∧
    ((∀ f ∈ (mainRun k c n r dl pl chunks fa rf).staged, rf f = false) →
      (mainRun k c n r dl pl chunks fa rf).removed =
        (mainRun k c n r dl pl chunks fa rf).staged) := by
  by_cases h1 : k = ""
  · simp [mainRun, h1, rejectedRun]
  · rcases c with _ | cv <;> rcases n with _ | nv <;> rcases r with _ | rv <;>
    first
    | (simp [mainRun, h1, rejectedRun]; done)
    | (rw [mainRun_eq_startedRun k none (some nv) (some rv) dl pl chunks fa rf h1 rfl,
           mainRun_eq_startedRun k none (some nv) (some rv) dl pl chunks none rf h1 rfl]
       exact ⟨fun _ => (startedRun_cleanup _ _ _ _ _ _ _ _).1, rfl,
         (startedRun_cleanup _ _ _ _ _ _ _ _).2⟩)
    | (rw [mainRun_eq_startedRun k (some cv) none (some rv) dl pl chunks fa rf h1 rfl,
           mainRun_eq_startedRun k (some cv) none (some rv) dl pl chunks none rf h1 rfl]
       exact ⟨fun _ => (startedRun_cleanup _ _ _ _ _ _ _ _).1, rfl,
         (startedRun_cleanup _ _ _ _ _ _ _ _).2⟩)
    | (rw [mainRun_eq_startedRun k (some cv) (some nv) (some rv) dl pl chunks fa rf h1 rfl,
           mainRun_eq_startedRun k (some cv) (some nv) (some rv) dl pl chunks none rf h1 rfl]
       exact ⟨fun _ => (startedRun_cleanup _ _ _ _ _ _ _ _).1, rfl,
         (startedRun_cleanup _ _ _ _ _ _ _ _).2⟩)

/-- Witness for `C3_cleanup` at a concrete run with no removal failures. -/
theorem C3_cleanup_witness :
    (mainRun "k" (some "a.docx") none (some "r.docx") okLoader okLoader [] none
        noRemoveFail).removed =
      (mainRun "k" (some "a.docx") none (some "r.docx") okLoader okLoader [] none
        noRemoveFail).staged :=
  (C3_cleanup "k" (some "a.docx") none (some "r.docx") okLoader okLoader [] none
    noRemoveFail).2.2 (by decide)

/-- C4: if the extracted changes text is non-empty the changes-template is
loaded and bound with exactly the keys `changes` and `region_law`; otherwise
the new-law-template is loaded and bound with exactly the keys
`new_federal_law` and `region_law`; exactly one template is active. -/
theorem C4_template_selection (ct nt rt : String) :
    (ct ≠ "" →
      selectPrompt ct nt rt =
        { template := load_template "changes"
          binding := [("changes", ct), ("region_law", rt)] }) ∧
    (ct = "" →
      selectPrompt ct nt rt =
        { template := load_template "new_federal_law"
          binding := [("new_federal_law", nt), ("region_law", rt)] }) ∧
    ((selectPrompt ct nt rt).template = load_template "changes" ↔ ct ≠ "") ∧
    ((selectPrompt ct nt rt).template = load_template "new_federal_law" ↔ ct = "") ∧
    ((selectPrompt ct nt rt).binding.map Prod.fst =
      if ct ≠ "" then ["changes", "region_law"] else ["new_federal_law", "region_law"]) := by
  by_cases h : ct = "" <;> simp [selectPrompt, load_template, h]

/-- Witness for `C4_template_selection` with a non-empty changes text. -/
theorem C4_template_selection_witness :
    selectPrompt "c" "n" "r" =
      { template := load_template "changes"
        binding := [("changes", "c"), ("region_law", "r")] } :=
  (C4_template_selection "c" "n" "r").1 (by decide)

/-- C5: a missing credential and each of the three unsatisfied
required-document combinations is rejected with its own distinct
user-facing message, and a rejected run stages no file. -/
theorem C5_rejection_messages (k : String) (c n r : Option String)
    (dl pl : String → Except String String) (chunks : List String)
    (fa : Option Nat) (rf : String → Bool) :
    (k = "" → mainRun k c n r dl pl chunks fa rf = rejectedRun msgApiKey) ∧
    (k ≠ "" → c = none → n = none → r.isSome = true →
      mainRun k c n r dl pl chunks fa rf = rejectedRun msgNeedChangesOrNew) ∧
    (k ≠ "" → (c.isSome || n.isSome) = true → r = none →
      mainRun k c n r dl pl chunks fa rf = rejectedRun msgNeedRegion) ∧
    (k ≠ "" → c = none → n = none → r = none →
      mainRun k c n r dl pl chunks fa rf = rejectedRun msgNeedBoth) ∧
    (∀ m, (rejectedRun m).staged = [] ∧ (rejectedRun m).message = some m) ∧
    (msgApiKey ≠ msgNeedChangesOrNew ∧ msgApiKey ≠ msgNeedRegion ∧
      msgApiKey ≠ msgNeedBoth ∧ msgNeedChangesOrNew ≠ msgNeedRegion ∧
      msgNeedChangesOrNew ≠ msgNeedBoth ∧ msgNeedRegion ≠ msgNeedBoth) := by
  refine ⟨?_, ?_, ?_, ?_, fun m => ⟨rfl, rfl⟩, by decide⟩
  · intro h1
    simp [mainRun, h1]
  · intro h1 hc hn hr
    subst hc; subst hn
    simp [mainRun, h1, hr]
  · intro h1 hcn hr
    subst hr
    simp [mainRun, h1, hcn]
  · intro h1 hc hn hr
    subst hc; subst hn; subst hr
    simp [mainRun, h1]

/-- Witness for `C5_rejection_messages`: only the region-law document
present. -/
theorem C5_rejection_messages_witness :
    mainRun "k" none none (some "r.docx") okLoader okLoader [] none noRemoveFail =
      rejectedRun msgNeedChangesOrNew :=
  (C5_rejection_messages "k" none none (some "r.docx") okLoader okLoader [] none
    noRemoveFail).2.1 (by decide) rfl rfl rfl

/-- C6: extraction dispatches on the extension (`.docx` to the DOCX loader,
`.pdf` to the single-document PDF loader, anything else to the empty
string), and a raising loader is caught and mapped to the empty string with
the generic user-facing error shown; the function is total, so extraction
never raises past this boundary. -/
theorem C6_extraction_dispatch (dl pl : String → Except String String) (f : String) :
    (strEndsWith f ".docx" = true →
      extract_text_from_file dl pl f =
        match dl f with
        | Except.ok t => (t, false)
        | Except.error _ => ("", true)) ∧
    (strEndsWith f ".docx" = false → strEndsWith f ".pdf" = true →
      extract_text_from_file dl pl f =
        match pl f with
        | Except.ok t => (t, false)
        | Except.error _ => ("", true)) ∧
    (strEndsWith f ".docx" = false → strEndsWith f ".pdf" = false →
      extract_text_from_file dl pl f = ("", false)) ∧
    (∀ e, strEndsWith f ".docx" = true → dl f = Except.error e →
      extract_text_from_file dl pl f = ("", true)) ∧
    (∀ e, strEndsWith f ".docx" = false → strEndsWith f ".pdf" = true →
      pl f = Except.error e →
      extract_text_from_file dl pl f = ("", true)) := by
  refine ⟨?_, ?_, ?_, ?_, ?_⟩
  · intro h1
    simp [extract_text_from_file, h1]
  · intro h1 h2
    simp [extract_text_from_file, h1, h2]
  · intro h1 h2
    simp [extract_text_from_file, h1, h2]
  · intro e h1 he
    simp [extract_text_from_file, h1, he]
  · intro e h1 h2 he
    simp [extract_text_from_file, h1, h2, he]

/-- Witness for `C6_extraction_dispatch`: a raising DOCX loader yields the
empty string with the error surfaced. -/
theorem C6_extraction_dispatch_witness :
    extract_text_from_file errLoader okLoader "x.docx" = ("", true) :=
  (C6_extraction_dispatch errLoader okLoader "x.docx").2.2.2.1 "boom" (by decide) rfl

/-- C7: if the stream (or any step inside the streaming block) raises, the
error is shown as the generic retry message and no export is attempted. -/
theorem C7_stream_failure_skips_export (chunks : List String) (kk : Nat) :
    (runStream chunks (some kk)).errorShown = true ∧
    (runStream chunks (some kk)).exportAttempted = false ∧
    (runStream chunks (some kk)).exportDoc = none ∧
    (∀ (apiKey : String) (c n r : Option String)
        (dl pl : String → Except String String) (rf : String → Bool),
      (mainRun apiKey c n r dl pl chunks (some kk) rf).prompt.isSome = true →
      (mainRun apiKey c n r dl pl chunks (some kk) rf).message = some msgAnalysisError ∧
      (mainRun apiKey c n r dl pl chunks (some kk) rf).exportAttempted = false) := by
  refine ⟨rfl, rfl, rfl, ?_⟩
  intro apiKey c n r dl pl rf h
  by_cases h1 : apiKey = ""
  · simp [mainRun, h1, rejectedRun] at h
  · rcases c with _ | cv <;> rcases n with _ | nv <;> rcases r with _ | rv <;>
    first
    | (simp [mainRun, h1, rejectedRun] at h; done)
    | simp [mainRun, h1, startedRun, runStream]

/-- Witness for `C7_stream_failure_skips_export` at a concrete started run
whose stream raises immediately. -/
theorem C7_stream_failure_skips_export_witness :
    (mainRun "k" (some "a.docx") none (some "r.docx") okLoader okLoader ["A"] (some 0)
        noRemoveFail).message = some msgAnalysisError ∧
    (mainRun "k" (some "a.docx") none (some "r.docx") okLoader okLoader ["A"] (some 0)
        noRemoveFail).exportAttempted = false :=
  (C7_stream_failure_skips_export ["A"] 0).2.2.2 "k" (some "a.docx") none (some "r.docx")
    okLoader okLoader noRemoveFail (by decide)

/-- C8: after each fragment the rendered accumulator equals the
concatenation of all fragments received so far (for ["A","B","C"]: "A",
"AB", "ABC"), and the exported document is built from the final
concatenated string. -/
theorem C8_accumulator (chunks : List String) :
    (∀ i, i < chunks.length →
      (runStream chunks none).renders.getD i "" = concatAll (chunks.take (i + 1))) ∧
    (runStream chunks none).exportDoc = some (build_docx (concatAll chunks)) ∧
    (runStream ["A", "B", "C"] none).renders = ["A", "AB", "ABC"] := by
  refine ⟨fun i hi => ?_, rfl, by decide⟩
  have h2 := streamRenders_getD chunks "" i hi
  rw [str_empty_append] at h2
  exact h2

/-- Witness for `C8_accumulator` on the stream ["A","B","C"]. -/
theorem C8_accumulator_witness :
    (runStream ["A", "B", "C"] none).renders.getD 2 "" = concatAll (["A", "B", "C"].take 3) :=
  (C8_accumulator ["A", "B", "C"]).1 2 (by decide)

/-- C9: `delete_files` wraps the whole removal loop in one exception
handler, so the first raising removal logs the error and aborts the loop:
the files processed before the failure are removed, and neither the failing
file nor any later file is removed. -/
theorem C9_cleanup_aborts_on_first_failure (rf : String → Bool) (pre : List String)
    (f : String) (rest : List String)
    (hpre1 : ∀ g ∈ pre, g ≠ "") (hpre2 : ∀ g ∈ pre, rf g = false)
    (hf : f ≠ "") (hfail : rf f = true) :
    delete_files rf (pre ++ f :: rest) = (pre, true) := by
  revert hpre1 hpre2
  induction pre with
  | nil =>
    intro _ _
    simp [delete_files, hf, hfail]
  | cons g gs ih =>
    intro hpre1 hpre2
    have hg1 : g ≠ "" := hpre1 g (List.mem_cons_self g gs)
    have hg2 : rf g = false := hpre2 g (List.mem_cons_self g gs)
    have hrec := ih (fun x hx => hpre1 x (List.mem_cons_of_mem g hx))
      (fun x hx => hpre2 x (List.mem_cons_of_mem g hx))
    simp [delete_files, hg1, hg2, hrec]

/-- Witness for `C9_cleanup_aborts_on_first_failure`: removing "b" raises,
so only "a" is removed, the error is logged, and "c" is left on disk. -/
theorem C9_cleanup_aborts_on_first_failure_witness :
    delete_files failOnB ["a", "b", "c"] = (["a"], true) :=
  C9_cleanup_aborts_on_first_failure failOnB ["a"] "b" ["c"]
    (by decide) (by decide) (by decide) (by decide)

/-- C10: for the empty completion text the exported document contains
exactly one paragraph, and that paragraph is empty. -/
theorem C10_empty_text_single_empty_paragraph :
    (build_docx "").paragraphs = [""] ∧ (build_docx "").paragraphs.length = 1 := by
  decide

end App
